import Mathlib

/-!
Shallow embedding of the proxy lifecycle supervisor of `src/core/proxy.ts`
(duelsplus/cli).  Pure TypeScript logic becomes Lean functions; OS effects
(filesystem, network fetch, sockets, signals) are passed in explicitly as
environment values, and the observable side effects are returned as event
traces.  All definitions are translated from the source module, not from
the prose specification.
-/

namespace DuelsPlus

/-- JSON record `{pid, port, controlPort?}` stored in a lock file
(`PidFileData` in proxy.ts). -/
structure PidFileData where
  pid : Nat
  port : Nat
  controlPort : Option Nat := none
deriving Repr, DecidableEq

/-- A lock-file slot on disk: the file can be absent, present but not
parseable as JSON, or present with a parsed record. -/
inductive LockFile where
  | absent
  | corrupt
  | valid (data : PidFileData)
deriving Repr, DecidableEq

/-- Model of `readPidFile` (proxy.ts:48): `null` when the file is missing or fails
to parse, otherwise the parsed record. -/
def readPidFile : LockFile → Option PidFileData
  | .absent => none
  | .corrupt => none
  | .valid d => some d

/-- Model of `deletePidFile` (proxy.ts:62): best-effort unlink; afterwards the file
is gone. -/
def deletePidFile (_ : LockFile) : LockFile := .absent

/-- Model of `checkForExistingProxy(port)` (proxy.ts:136-160).  The OS liveness
check `process.kill(pid, 0)` is passed in as `alive`.  Returns the
record handed back to the caller together with the lock-file state left
on disk. -/
def checkForExistingProxy (alive : Nat → Bool) (lock : LockFile) (port : Nat) :
    Option PidFileData × LockFile :=
  match readPidFile lock with
  | none => (none, lock)
  | some pidData =>
    if pidData.port ≠ port then
      (none, deletePidFile lock)
    else if !alive pidData.pid then
      (none, deletePidFile lock)
    else
      (some pidData, lock)

/-! ## Proxy binary filenames (proxy.ts:290-337) -/

/-- Longest leading run of decimal digits of a character list, with the
remainder (models a greedy `\d+`). -/
def takeDigits : List Char → List Char × List Char
  | [] => ([], [])
  | c :: rest =>
    if c.isDigit then
      let (d, r) := takeDigits rest
      (c :: d, r)
    else ([], c :: rest)

/-- Consume the literal character list `pat` from the front of the input;
`none` when the input does not start with it. -/
def dropLead : List Char → List Char → Option (List Char)
  | [], rest => some rest
  | _, [] => none
  | p :: ps, c :: cs => if p = c then dropLead ps cs else none

/-- Model of `\d+\.\d+\.\d+`: three nonempty digit runs separated by dots; returns
the matched characters and the remainder. -/
def parseVersionChars (cs : List Char) : Option (List Char × List Char) :=
  let (d1, r1) := takeDigits cs
  if d1 = [] then none else
  match r1 with
  | '.' :: r2 =>
    let (d2, r3) := takeDigits r2
    if d2 = [] then none else
    (match r3 with
     | '.' :: r4 =>
       let (d3, r5) := takeDigits r4
       if d3 = [] then none
       else some (d1 ++ '.' :: d2 ++ '.' :: d3, r5)
     | _ => none)
  | _ => none

/-- Result of `parseProxyFilename`. -/
structure ParsedProxyName where
  version : String
  isBeta : Bool
deriving Repr, DecidableEq

/-- Model of `parseProxyFilename` (proxy.ts:304-312): the regex
`^duelsplus-(\d+\.\d+\.\d+)(-beta)?-node` with its backtracking on the
optional `-beta` group. -/
def parseProxyFilename (fileName : String) : Option ParsedProxyName :=
  match dropLead "duelsplus-".data fileName.data with
  | none => none
  | some r =>
    match parseVersionChars r with
    | none => none
    | some (v, rest) =>
      match dropLead "-beta".data rest with
      | some afterBeta =>
        (match dropLead "-node".data afterBeta with
         | some _ => some ⟨String.mk v, true⟩
         | none =>
           match dropLead "-node".data rest with
           | some _ => some ⟨String.mk v, false⟩
           | none => none)
      | none =>
        match dropLead "-node".data rest with
        | some _ => some ⟨String.mk v, false⟩
        | none => none

/-- Does `pat` stand at the front of `l`? -/
def leadsWith : List Char → List Char → Bool
  | [], _ => true
  | _ :: _, [] => false
  | p :: ps, c :: cs => p = c && leadsWith ps cs

/-- Does `sub` occur contiguously somewhere inside `l`? -/
def substrAt (sub : List Char) : List Char → Bool
  | [] => sub.isEmpty
  | c :: cs => leadsWith sub (c :: cs) || substrAt sub cs

/-- JavaScript `String.prototype.includes` as used on filenames:
`sub` occurs contiguously inside `s`. -/
def strIncludes (s sub : String) : Bool :=
  substrAt sub.data s.data

/-- Model of `InstalledProxyInfo` (proxy.ts:294-298). -/
structure InstalledProxyInfo where
  fileName : String
  version : String
  isBeta : Bool
deriving Repr, DecidableEq

/-- Loop body of `getInstalledProxy` (proxy.ts:329-335): first directory
entry containing the platform tag that parses as a proxy filename. -/
def findInstalled (tag : String) : List String → Option InstalledProxyInfo
  | [] => none
  | f :: fs =>
    if strIncludes f tag then
      match parseProxyFilename f with
      | some p => some ⟨f, p.version, p.isBeta⟩
      | none => findInstalled tag fs
    else findInstalled tag fs

/-- Model of `getInstalledProxy` (proxy.ts:318-337).  `dir = none` models `readdir`
throwing (install directory missing). -/
def getInstalledProxy (dir : Option (List String)) (tag : String) :
    Option InstalledProxyInfo :=
  match dir with
  | none => none
  | some files => findInstalled tag files

/-- Model of `isInstalledProxyBetaAndShouldNotBe` (proxy.ts:363-375). -/
def isInstalledProxyBetaAndShouldNotBe (dir : Option (List String)) (tag : String)
    (userIsBetaEligible receiveBetaReleases : Bool) : Bool :=
  match getInstalledProxy dir tag with
  | none => false
  | some installed =>
    installed.isBeta && (!userIsBetaEligible || !receiveBetaReleases)

/-! ## Release metadata and staleness (proxy.ts:381-411) -/

/-- One asset of a release (`latest.assets` entries). -/
structure Asset where
  id : String
  name : String
deriving Repr, DecidableEq

/-- One entry of the release list returned by the updates API. -/
structure Release where
  version : String
  isLatest : Bool
  assets : List Asset
deriving Repr, DecidableEq

/-- Outcome of `await fetch(url)` on the release endpoint of the
requested channel.  A network-level failure (unreachable host, DNS
error, connection refused) makes the fetch promise itself reject —
distinct from receiving a response with a non-ok HTTP status, and
distinct again from an ok response whose body fails to parse as JSON
(`res.json()` rejects). -/
inductive FetchOutcome where
  | reject
  | notOk
  | badJson
  | ok (releases : List Release)
deriving Repr, DecidableEq

/-- Model of `releases.find(r => r.isLatest) ?? releases[0]` (proxy.ts:391-392,
446-447). -/
def latestOf (releases : List Release) : Option Release :=
  match releases.find? (·.isLatest) with
  | some r => some r
  | none => releases.head?

/-- Result record of `isProxyVersionStale`. -/
structure StaleResult where
  stale : Bool
  reason : Option String := none
deriving Repr, DecidableEq

/-- Model of `isProxyVersionStale(useBeta)` (proxy.ts:381-411).  Only a
received response with `!res.ok` fails open (proxy.ts:389); a rejected
`await fetch` — the network-level failure case — and a rejected
`res.json()` raise an exception that propagates out of the function
uncaught, modelled as `.error ()`.  The second component of the result
records whether the function attempted the network fetch. -/
def isProxyVersionStale (dir : Option (List String)) (tag : String)
    (useBeta : Bool) (fetch : FetchOutcome) :
    Except Unit StaleResult × Bool :=
  match getInstalledProxy dir tag with
  | none => (.ok ⟨false, none⟩, false)
  | some installed =>
    match fetch with
    | .reject => (.error (), true)
    | .notOk => (.ok ⟨false, none⟩, true)
    | .badJson => (.error (), true)
    | .ok releases =>
      match latestOf releases with
      | none => (.ok ⟨false, none⟩, true)
      | some latest =>
        if installed.version ≠ latest.version then
          (.ok ⟨true, some ("Installed " ++ installed.version ++ " ("
            ++ (if installed.isBeta then "beta" else "stable")
            ++ ") but latest is " ++ latest.version)⟩, true)
        else if installed.isBeta != useBeta then
          (.ok ⟨true, some ("Installed track is "
            ++ (if installed.isBeta then "beta" else "stable")
            ++ " but should be "
            ++ (if useBeta then "beta" else "stable"))⟩, true)
        else (.ok ⟨false, none⟩, true)

/-! ## Artifact resolver: `checkForUpdates` (proxy.ts:413-508)

The install directory is modelled as a list of `(name, size)` entries;
paths are taken relative to the install directory, so the path returned
by the resolver for a cached file is just the file name. -/

/-- A file of the install directory: its name and its size in bytes. -/
structure FileEntry where
  name : String
  size : Nat
deriving Repr, DecidableEq

/-- The mutable `runtimeState` flags consulted by `checkForUpdates`:
`proxyPath` override, `noUpdate`, `forceUpdate`. -/
structure RuntimeFlags where
  proxyPathOverride : Option String := none
  noUpdate : Bool := false
  forceUpdate : Bool := false
deriving Repr, DecidableEq

/-- Environment of one resolver run: platform tag, outcome of the release
fetch for the requested channel, size of the artifact the server would
deliver, and whether the custom override binary exists on disk. -/
structure ResolverEnv where
  platformTag : String
  fetch : FetchOutcome
  artifactSize : Nat
  overrideExists : Bool := false
deriving Repr, DecidableEq

/-- Model of `fs.existsSync` / `Bun.file(...).exists()` on an install-directory
entry. -/
def fileExists (files : List FileEntry) (name : String) : Bool :=
  files.any (·.name = name)

/-- Model of `fs.statSync(path).size` on an install-directory entry. -/
def statSize (files : List FileEntry) (name : String) : Option Nat :=
  (files.find? (·.name = name)).map (·.size)

/-- Effect of `downloadArtifact` on the install directory
(proxy.ts:196-288): the destination is unlinked when present, then the
streamed artifact is written there. -/
def writeArtifact (files : List FileEntry) (name : String) (size : Nat) :
    List FileEntry :=
  files.filter (fun f => f.name ≠ name) ++ [⟨name, size⟩]

/-- JS truthiness of the `keep && f === keep` guard in
`cleanupProxyBinaries`: `null` and the empty string are falsy. -/
def keepMatches (keep : Option String) (name : String) : Bool :=
  match keep with
  | some k => k ≠ "" && name = k
  | none => false

/-- Model of `cleanupProxyBinaries(keep)` (proxy.ts:343-356): delete every file
containing the platform tag except `keep`. -/
def cleanupProxyBinaries (files : List FileEntry) (tag : String)
    (keep : Option String) : List FileEntry :=
  files.filter (fun f => !(strIncludes f.name tag && !keepMatches keep f.name))

/-- The errors `checkForUpdates` can throw.  `fetchRejected` and
`badJson` are the uncaught rejections of `await fetch` and
`res.json()`; `fetchFailed` is the explicitly thrown
`Failed to fetch releases` on a non-ok status (proxy.ts:441-442). -/
inductive ResolveErr where
  | customNotFound
  | fetchRejected
  | fetchFailed
  | badJson
  | noRelease
  | noAsset
  | noCachedBinary
deriving Repr, DecidableEq

/-- Result of one `checkForUpdates` run: returned path (or thrown error),
install directory afterwards, asset ids downloaded, and — when the
decision point was reached — the value of `needsDownload`. -/
structure ResolveOut where
  result : Except ResolveErr String
  files : List FileEntry
  downloads : List String
  needsDownload : Option Bool
deriving Repr

/-- The `needsDownload` decision of `checkForUpdates` (proxy.ts:467-497),
given the directory contents, the selected asset and the flags. -/
def needsDownloadDecision (files : List FileEntry) (tag : String)
    (asset : Asset) (forceUpdate : Bool) : Bool :=
  let ex := fileExists files asset.name
  let nd0 := !ex
  let nd1 := if forceUpdate then true else nd0
  let nd2 :=
    if ex then
      match statSize files asset.name with
      | some size => if size < 50 * 1024 * 1024 then true else nd1
      | none => true
    else nd1
  if !nd2 then
    match getInstalledProxy (some (files.map (·.name))) tag with
    | some installed => if installed.fileName ≠ asset.name then true else nd2
    | none => nd2
  else nd2

/-- Model of `checkForUpdates(emit, silent, useBeta)` (proxy.ts:413-508). -/
def checkForUpdates (env : ResolverEnv) (flags : RuntimeFlags)
    (files : List FileEntry) : ResolveOut :=
  match flags.proxyPathOverride with
  | some p =>
    if env.overrideExists then ⟨.ok p, files, [], none⟩
    else ⟨.error .customNotFound, files, [], none⟩
  | none =>
    match env.fetch with
    | .reject => ⟨.error .fetchRejected, files, [], none⟩
    | .notOk => ⟨.error .fetchFailed, files, [], none⟩
    | .badJson => ⟨.error .badJson, files, [], none⟩
    | .ok releases =>
      match latestOf releases with
      | none => ⟨.error .noRelease, files, [], none⟩
      | some latest =>
        match latest.assets.find? (fun a => strIncludes a.name env.platformTag) with
        | none => ⟨.error .noAsset, files, [], none⟩
        | some asset =>
          if flags.noUpdate then
            match files.find? (fun f => strIncludes f.name env.platformTag) with
            | none => ⟨.error .noCachedBinary, files, [], none⟩
            | some cached => ⟨.ok cached.name, files, [], none⟩
          else
            let nd := needsDownloadDecision files env.platformTag asset
              flags.forceUpdate
            let files1 :=
              if nd then writeArtifact files asset.name env.artifactSize
              else files
            let files2 := cleanupProxyBinaries files1 env.platformTag
              (some asset.name)
            ⟨.ok asset.name, files2, if nd then [asset.id] else [], some nd⟩

/-! ## Port probe and launch (proxy.ts:174-192, 510-541) -/

/-- Outcome of the probe server's attempt to bind the requested port. -/
inductive BindOutcome where
  | success
  | addrInUse
  | otherErr
deriving Repr, DecidableEq

/-- Model of `isPortFree(port)` (proxy.ts:174-192): `true` only when the probe
listener binds successfully; `EADDRINUSE` and every other bind error
resolve `false`. -/
def isPortFree : BindOutcome → Bool
  | .success => true
  | .addrInUse => false
  | .otherErr => false

/-- Errors `launchProxy` can throw before a child process exists. -/
inductive LaunchErr where
  | portInUse
  | resolver (e : ResolveErr)
  | binaryMissing
deriving Repr, DecidableEq

/-- Result of a `launchProxy` run: outcome, install directory afterwards,
asset ids downloaded, and whether a child process was spawned. -/
structure LaunchOut where
  result : Except LaunchErr String
  files : List FileEntry
  downloads : List String
  spawned : Bool
deriving Repr

/-- Model of `launchProxy(port, emit, useBeta)` up to the spawn (proxy.ts:510-533):
probe the port, resolve the binary, check it exists, spawn it. -/
def launchProxy (bind : BindOutcome) (env : ResolverEnv)
    (flags : RuntimeFlags) (files : List FileEntry) : LaunchOut :=
  if !isPortFree bind then
    ⟨.error .portInUse, files, [], false⟩
  else
    match checkForUpdates env flags files with
    | ⟨.error e, files', ds, _⟩ => ⟨.error (.resolver e), files', ds, false⟩
    | ⟨.ok p, files', ds, _⟩ =>
      let ex :=
        match flags.proxyPathOverride with
        | some _ => env.overrideExists
        | none => fileExists files' p
      if ex then ⟨.ok p, files', ds, true⟩
      else ⟨.error .binaryMissing, files', ds, false⟩

/-! ## Graceful-shutdown control channel (proxy.ts:103-134)

`sendShutdownCommand` registers a 5000 ms timer resolving `false`, a
`data` handler that clears the timer and resolves `true` only when the
trimmed payload is `ok`, an `error` handler that clears the timer and
resolves `false`, and a `close` handler that only clears the timer.  A
socket run is modelled as the time-ordered list of events delivered to
those handlers; the promise settles with the first resolution, and
`none` means it never settles. -/

/-- Strip leading and trailing whitespace from a character list. -/
def trimChars (l : List Char) : List Char :=
  ((l.dropWhile Char.isWhitespace).reverse.dropWhile Char.isWhitespace).reverse

/-- JavaScript `String.prototype.trim` as applied to the inbound payload
(`data.toString().trim()`, proxy.ts:119). -/
def jsTrim (s : String) : String :=
  String.mk (trimChars s.data)

/-- An event delivered to the client socket's handlers. -/
inductive SockEv where
  | data (payload : String)
  | errEv
  | closeEv
deriving Repr, DecidableEq

/-- One connection attempt: whether TCP connect succeeds (the `shutdown`
write happens in the connect callback) and the timed handler events. -/
structure SocketScenario where
  connects : Bool
  events : List (Nat × SockEv)
deriving Repr, DecidableEq

/-- Settle the promise of `sendShutdownCommand` over the handler events:
`timerActive` tracks whether the `setTimeout` is still pending, and the
timer fires as soon as the next event lies at or beyond the deadline (or
no further event arrives). -/
def runSocket (timeout : Nat) : List (Nat × SockEv) → Bool → Option Bool
  | [], timerActive => if timerActive then some false else none
  | (t, ev) :: rest, timerActive =>
    if timerActive && timeout ≤ t then some false
    else
      match ev with
      | .data payload =>
        if jsTrim payload = "ok" then some true
        else runSocket timeout rest false
      | .errEv => some false
      | .closeEv => runSocket timeout rest false

/-- Model of `sendShutdownCommand(controlPort)` (proxy.ts:105-134): the settled
value of the promise (`none` = never settles), and whether the literal
bytes `shutdown` were written. -/
def sendShutdownCommand (sock : SocketScenario) : Option Bool × Bool :=
  (runSocket 5000 sock.events true, sock.connects)

/-! ## Supervisor state, kill, waiters (proxy.ts:17-23, 570-624, 626-719) -/

/-- The module-level mutable state of proxy.ts: the owned process handle
(`proxyProc`, carrying its pid), the running/attached flags, the
launcher's own lock file, and the proxy-owned lock file (read-only for
the launcher). -/
structure SupervisorState where
  proxyProc : Option Nat := none
  isProxyRunning : Bool := false
  isIntentionalShutdown : Bool := false
  isAttachedToExisting : Bool := false
  attachedPid : Option Nat := none
  attachedPort : Option Nat := none
  cliLock : LockFile := .absent
  proxyOwnLock : Option PidFileData := none
deriving Repr, DecidableEq

/-- Observable actions of `killProxy`, in program order. -/
inductive KillEvent where
  | setIntentionalShutdown
  | shutdownWrite (controlPort : Nat)
  | signalPid (pid : Nat)
  | killHandle (pid : Nat)
  | deleteLock
deriving Repr, DecidableEq

/-- Outcome of a `killProxy` run.  `completed = false` when the call is
stuck awaiting a handshake promise that never settles; `state` and
`trace` then reflect everything that happened up to that point. -/
structure KillOutcome where
  state : SupervisorState
  trace : List KillEvent
  completed : Bool
deriving Repr, DecidableEq

/-- JS truthiness of `lockData?.controlPort` (proxy.ts:632): a missing
record, a missing field and the number `0` are all falsy. -/
def truthyControlPort : Option PidFileData → Option Nat
  | none => none
  | some d =>
    match d.controlPort with
    | none => none
    | some cp => if cp = 0 then none else some cp

/-- Signal-based fallback of `killProxy` (proxy.ts:645-686): attached
path signals the recorded pid and deletes the launcher's lock file;
owned path kills the held handle and deletes the lock file. -/
def killFallback (s : SupervisorState) (ev : List KillEvent) : KillOutcome :=
  match s.isAttachedToExisting, s.attachedPid with
  | true, some pid =>
    ⟨{ s with isProxyRunning := false, isAttachedToExisting := false,
              attachedPid := none, attachedPort := none,
              cliLock := deletePidFile s.cliLock },
      ev ++ [.signalPid pid, .deleteLock], true⟩
  | _, _ =>
    match s.proxyProc with
    | some pid =>
      ⟨{ s with cliLock := deletePidFile s.cliLock },
        ev ++ [.killHandle pid, .deleteLock], true⟩
    | none => ⟨s, ev, true⟩

/-- Model of `killProxy()` (proxy.ts:626-687): set `isIntentionalShutdown` first,
try the control-socket handshake when the proxy's lock file carries a
truthy control port, and fall back to signals when it reports failure. -/
def killProxy (s : SupervisorState) (sock : SocketScenario) : KillOutcome :=
  let s1 := { s with isIntentionalShutdown := true }
  let ev1 : List KillEvent := [.setIntentionalShutdown]
  match truthyControlPort s1.proxyOwnLock with
  | some cp =>
    let (res, wrote) := sendShutdownCommand sock
    let ev2 := ev1 ++ (if wrote then [KillEvent.shutdownWrite cp] else [])
    (match res with
     | none => ⟨s1, ev2, false⟩
     | some true =>
       ⟨{ s1 with isAttachedToExisting := false, attachedPid := none,
                  attachedPort := none }, ev2, true⟩
     | some false => killFallback s1 ev2)
  | none => killFallback s1 ev1

/-- The exit waiter started by `launchProxy` (proxy.ts:571-591), run at
the moment the owned child exits with `code`: clears the running flag,
deletes the launcher's lock file, and reports a crash only for a
non-zero code with no intentional shutdown in flight.  Returns the new
state and whether a crash was emitted. -/
def exitWaiterOnExit (s : SupervisorState) (code : Int) :
    SupervisorState × Bool :=
  ({ s with isProxyRunning := false, cliLock := deletePidFile s.cliLock },
   code ≠ 0 && !s.isIntentionalShutdown)

/-- One tick of the attach liveness poll (proxy.ts:606-623): while still
attached, a dead pid clears the state, deletes the lock file and emits a
crash; once the attached flags are gone the interval stops without
touching the lock file.  Returns the new state and whether a crash was
emitted. -/
def attachPollTick (alive : Nat → Bool) (s : SupervisorState) :
    SupervisorState × Bool :=
  match s.isAttachedToExisting, s.attachedPid with
  | true, some pid =>
    if alive pid then (s, false)
    else
      ({ s with isProxyRunning := false, isAttachedToExisting := false,
                attachedPid := none, attachedPort := none,
                cliLock := deletePidFile s.cliLock }, true)
  | _, _ => (s, false)

/-- Model of `savePidFile(pid, port)` (proxy.ts:41-46). -/
def savePidFile (pid port : Nat) : LockFile :=
  .valid ⟨pid, port, none⟩

/-- Model of `detachProxy(port)` (proxy.ts:689-719): persist `{pid, port}` to the
launcher's lock file and relinquish the in-memory handle. -/
def detachProxy (s : SupervisorState) (port : Nat) :
    Except Unit SupervisorState :=
  if !s.isProxyRunning then .error ()
  else
    match s.isAttachedToExisting, s.attachedPid with
    | true, some pid =>
      .ok { s with cliLock := savePidFile pid port,
                   isProxyRunning := false, isAttachedToExisting := false,
                   attachedPid := none, attachedPort := none }
    | _, _ =>
      match s.proxyProc with
      | none => .error ()
      | some pid =>
        let s1 := if pid ≠ 0 then { s with cliLock := savePidFile pid port }
                  else s
        .ok { s1 with proxyProc := none, isProxyRunning := false }

/-! ## Concrete scenarios used to instantiate the theorems -/

/-- An attached supervisor (launcher restarted and re-attached to pid
4321 on port 25565), with the proxy's own lock file exposing control
port 9999 and the launcher's lock file still on disk. -/
def attachedKillScenario : SupervisorState :=
  { proxyProc := none, isProxyRunning := true, isIntentionalShutdown := false,
    isAttachedToExisting := true, attachedPid := some 4321,
    attachedPort := some 25565,
    cliLock := .valid ⟨4321, 25565, none⟩,
    proxyOwnLock := some ⟨4321, 25565, some 9999⟩ }

/-- A socket run where the peer acknowledges with `ok` 10 ms in. -/
def okAckScenario : SocketScenario := ⟨true, [(10, .data "ok")]⟩

/-- Release list with a single latest release shipping one win-x64
asset. -/
def oneAssetReleases : List Release :=
  [⟨"1.0.0", true, [⟨"a1", "duelsplus-1.0.0-node18-win-x64.exe"⟩]⟩]

/-- Resolver environment whose artifact is only 10 MB — below the 50 MB
corruption-guard threshold. -/
def smallArtifactEnv : ResolverEnv :=
  ⟨"win-x64", .ok oneAssetReleases, 10485760, false⟩

/-- Resolver environment whose artifact is 100 MB. -/
def bigArtifactEnv : ResolverEnv :=
  ⟨"win-x64", .ok oneAssetReleases, 104857600, false⟩

/-- Default runtime flags: no override, updates allowed, no force. -/
def defaultFlags : RuntimeFlags := ⟨none, false, false⟩

/-! ## General lemmas about the helper functions -/

theorem find?_filter_eq {α : Type} (p q : α → Bool) (l : List α)
    (h : ∀ a, p a = true → q a = true) :
    (l.filter q).find? p = l.find? p := by
  induction l with
  | nil => rfl
  | cons x xs ih =>
    by_cases hp : p x = true
    · rw [List.filter_cons, if_pos (h x hp), List.find?_cons_of_pos _ hp,
        List.find?_cons_of_pos _ hp]
    · have hp' : ¬ p x = true := hp
      by_cases hq : q x = true
      · rw [List.filter_cons, if_pos hq, List.find?_cons_of_neg _ hp',
          List.find?_cons_of_neg _ hp', ih]
      · rw [List.filter_cons, if_neg hq, List.find?_cons_of_neg _ hp', ih]

theorem statSize_isSome (files : List FileEntry) (name : String) :
    (statSize files name).isSome = fileExists files name := by
  induction files with
  | nil => rfl
  | cons f fs ih =>
    by_cases h : f.name = name
    · simp [statSize, fileExists, List.find?_cons_of_pos, h]
    · have h' : ¬ (decide (f.name = name)) = true := by simp [h]
      simp only [statSize, fileExists, List.find?_cons_of_neg _ h',
        List.any_cons] at ih ⊢
      simp [h, ih]

theorem fileExists_of_statSize {files : List FileEntry} {name : String}
    {s : Nat} (h : statSize files name = some s) :
    fileExists files name = true := by
  rw [← statSize_isSome, h]; rfl

theorem statSize_writeArtifact (files : List FileEntry) (name : String)
    (size : Nat) :
    statSize (writeArtifact files name size) name = some size := by
  unfold writeArtifact
  induction files with
  | nil => simp [statSize]
  | cons f fs ih =>
    by_cases h : f.name = name
    · simpa [List.filter_cons, h] using ih
    · simp only [statSize] at ih ⊢
      rw [List.filter_cons, if_pos (by simp [h]), List.cons_append,
        List.find?_cons_of_neg, ih]
      simp [h]

theorem keepMatches_self {A : String} (h : A ≠ "") :
    keepMatches (some A) A = true := by
  simp [keepMatches, h]

theorem statSize_cleanup (files : List FileEntry) (tag A : String)
    (h : A ≠ "") :
    statSize (cleanupProxyBinaries files tag (some A)) A = statSize files A := by
  unfold cleanupProxyBinaries statSize
  rw [find?_filter_eq]
  intro f hf
  have hfa : f.name = A := by simpa using hf
  simp [hfa, keepMatches_self h]

theorem name_eq_keep_of_mem_cleanup {files : List FileEntry} {tag A : String}
    {f : FileEntry}
    (hmem : f ∈ cleanupProxyBinaries files tag (some A))
    (htag : strIncludes f.name tag = true) : f.name = A := by
  unfold cleanupProxyBinaries at hmem
  have hkeep := List.of_mem_filter hmem
  by_contra hne
  have : keepMatches (some A) f.name = false := by
    simp [keepMatches, hne]
  rw [htag, this] at hkeep
  simp at hkeep

theorem findInstalled_fileName {tag A : String} :
    ∀ (names : List String), (∀ n ∈ names, strIncludes n tag = true → n = A) →
    ∀ i, findInstalled tag names = some i → i.fileName = A := by
  intro names
  induction names with
  | nil => intro _ i h; cases h
  | cons n ns ih =>
    intro h i hfind
    unfold findInstalled at hfind
    by_cases hincl : strIncludes n tag = true
    · rw [if_pos hincl] at hfind
      cases hp : parseProxyFilename n with
      | some p =>
        rw [hp] at hfind
        cases hfind
        exact h n (List.mem_cons_self n ns) hincl
      | none =>
        rw [hp] at hfind
        exact ih (fun m hm => h m (List.mem_cons_of_mem n hm)) i hfind
    · rw [if_neg hincl] at hfind
      exact ih (fun m hm => h m (List.mem_cons_of_mem n hm)) i hfind

theorem strIncludes_empty_left {tag : String}
    (h : strIncludes "" tag = true) : tag = "" := by
  cases tag with
  | mk l =>
    cases l with
    | nil => rfl
    | cons c cs =>
      have hfalse : strIncludes "" (String.mk (c :: cs)) = false := rfl
      rw [hfalse] at h
      cases h

/-! ## Claim theorems -/

/-- C4: for every lock-file state and requested port,
`checkForExistingProxy(port)` returns `null` when the lock file is
absent (a corrupt file is treated as absent and also yields `null`);
returns `null` and deletes the file when the recorded port differs from
the requested port; returns `null` and deletes the file when the
recorded PID is not alive; and otherwise returns the recorded record
with the file left in place. -/
theorem checkForExistingProxy_spec (alive : Nat → Bool) (lock : LockFile)
    (port : Nat) :
    (readPidFile lock = none →
      checkForExistingProxy alive lock port = (none, lock))
  ∧ (∀ d : PidFileData, lock = .valid d → d.port ≠ port →
      checkForExistingProxy alive lock port = (none, .absent))
  ∧ (∀ d : PidFileData, lock = .valid d → d.port = port →
      alive d.pid = false →
      checkForExistingProxy alive lock port = (none, .absent))
  ∧ (∀ d : PidFileData, lock = .valid d → d.port = port →
      alive d.pid = true →
      checkForExistingProxy alive lock port = (some d, lock)) := by
  refine ⟨?_, ?_, ?_, ?_⟩
  · intro h
    simp [checkForExistingProxy, h]
  · intro d hd hne
    subst hd
    simp [checkForExistingProxy, readPidFile, deletePidFile, hne]
  · intro d hd hport hdead
    subst hd
    simp [checkForExistingProxy, readPidFile, deletePidFile, hport, hdead]
  · intro d hd hport halive
    subst hd
    simp [checkForExistingProxy, readPidFile, hport, halive]

/-- Witness for C4: with the lock file holding `{pid 4321, port 25565}`,
a live PID leaves the record and file alone, and a dead PID yields
`null` with the file deleted. -/
theorem checkForExistingProxy_spec_witness :
    checkForExistingProxy (fun _ => true) (.valid ⟨4321, 25565, none⟩) 25565
      = (some ⟨4321, 25565, none⟩, .valid ⟨4321, 25565, none⟩)
  ∧ checkForExistingProxy (fun _ => false) (.valid ⟨4321, 25565, none⟩) 25565
      = (none, .absent)
  ∧ checkForExistingProxy (fun _ => true) (.valid ⟨4321, 25565, none⟩) 30000
      = (none, .absent)
  ∧ checkForExistingProxy (fun _ => true) .absent 25565 = (none, .absent) :=
  ⟨(checkForExistingProxy_spec (fun _ => true) _ 25565).2.2.2 _ rfl rfl rfl,
   (checkForExistingProxy_spec (fun _ => false) _ 25565).2.2.1 _ rfl rfl rfl,
   (checkForExistingProxy_spec (fun _ => true) _ 30000).2.1 _ rfl (by decide),
   (checkForExistingProxy_spec (fun _ => true) .absent 25565).1 rfl⟩

/-- C10: when no proxy binary is installed (install directory missing or
no entry both carrying the platform tag and parsing as a proxy
filename), `isProxyVersionStale` returns `{stale: false}` without
performing the network fetch, and `isInstalledProxyBetaAndShouldNotBe`
returns `false` for every combination of eligibility and opt-in
arguments. -/
theorem nothing_installed_fail_quiet (dir : Option (List String))
    (tag : String) (h : getInstalledProxy dir tag = none) :
    (∀ (useBeta : Bool) (fetch : FetchOutcome),
      isProxyVersionStale dir tag useBeta fetch = (.ok ⟨false, none⟩, false))
  ∧ (∀ eligible optIn : Bool,
      isInstalledProxyBetaAndShouldNotBe dir tag eligible optIn = false) := by
  constructor
  · intro useBeta fetch
    simp [isProxyVersionStale, h]
  · intro eligible optIn
    simp [isInstalledProxyBetaAndShouldNotBe, h]

/-- Witness for C10: a missing install directory — even when the
network would reject the fetch outright, no fetch happens and no
exception escapes — and a directory whose only entry does not match the
proxy filename pattern. -/
theorem nothing_installed_fail_quiet_witness :
    isProxyVersionStale none "win-x64" true .reject
      = (.ok ⟨false, none⟩, false)
  ∧ isInstalledProxyBetaAndShouldNotBe (some ["readme.txt"]) "x" true false
      = false :=
  ⟨(nothing_installed_fail_quiet none "win-x64" rfl).1 true .reject,
   (nothing_installed_fail_quiet (some ["readme.txt"]) "x" (by decide)).2
     true false⟩

/-- C5 counterexample: with `duelsplus-1.8.0-beta-node18-win-x64.exe`
installed, a network-level fetch failure — the promise of
`await fetch(url)` rejecting, as with an unreachable host — makes
`isProxyVersionStale` raise the rejection out of the function instead
of yielding `{stale: false}`: the fail-open guard at proxy.ts:389 only
covers a received response with a non-ok status. -/
theorem staleness_throws_on_fetch_rejection :
    isProxyVersionStale (some ["duelsplus-1.8.0-beta-node18-win-x64.exe"])
      "win-x64" false .reject = (.error (), true)
  ∧ isProxyVersionStale (some ["duelsplus-1.8.0-beta-node18-win-x64.exe"])
      "win-x64" false .notOk = (.ok ⟨false, none⟩, true) :=
  ⟨rfl, rfl⟩

/-- C5 amended: with a binary installed and a latest release fetched,
`isProxyVersionStale(wantBeta)` reports stale exactly when the
installed version differs from the latest release's version or the
installed channel differs from the requested one; an HTTP error
response (non-ok status) yields `{stale: false}` (fail open); but a
network-level fetch rejection, or a response body that fails to parse,
propagates as an exception out of the function rather than yielding
`{stale: false}`. -/
theorem isProxyVersionStale_spec (dir : Option (List String)) (tag : String)
    (useBeta : Bool) (releases : List Release)
    (installed : InstalledProxyInfo) (latest : Release)
    (hinst : getInstalledProxy dir tag = some installed)
    (hlat : latestOf releases = some latest) :
    ((isProxyVersionStale dir tag useBeta (.ok releases)).1.map (·.stale)
      = .ok (installed.version != latest.version
              || installed.isBeta != useBeta))
  ∧ isProxyVersionStale dir tag useBeta .notOk = (.ok ⟨false, none⟩, true)
  ∧ isProxyVersionStale dir tag useBeta .reject = (.error (), true)
  ∧ isProxyVersionStale dir tag useBeta .badJson = (.error (), true) := by
  refine ⟨?_, ?_, ?_, ?_⟩
  · by_cases hv : installed.version = latest.version
    · by_cases hb : installed.isBeta = useBeta
      · simp [isProxyVersionStale, hinst, hlat, hv, hb, Except.map]
      · simp [isProxyVersionStale, hinst, hlat, hv, hb, bne, Except.map]
    · simp [isProxyVersionStale, hinst, hlat, hv, bne, Except.map]
  · simp [isProxyVersionStale, hinst]
  · simp [isProxyVersionStale, hinst]
  · simp [isProxyVersionStale, hinst]

/-- Witness for the amended C5 (spec Scenarios C and D): installed
`duelsplus-1.8.0-beta-node18-win-x64.exe` with latest release `1.8.0`;
requesting beta is not stale, requesting stable is stale, a non-ok HTTP
response is not stale, and a rejected fetch escapes as an exception. -/
theorem isProxyVersionStale_spec_witness :
    (isProxyVersionStale (some ["duelsplus-1.8.0-beta-node18-win-x64.exe"])
      "win-x64" true (.ok [⟨"1.8.0", true, []⟩])).1.map (·.stale)
        = .ok ("1.8.0" != "1.8.0" || true != true)
  ∧ (isProxyVersionStale (some ["duelsplus-1.8.0-beta-node18-win-x64.exe"])
      "win-x64" false (.ok [⟨"1.8.0", true, []⟩])).1.map (·.stale)
        = .ok ("1.8.0" != "1.8.0" || true != false)
  ∧ isProxyVersionStale (some ["duelsplus-1.8.0-beta-node18-win-x64.exe"])
      "win-x64" false .notOk = (.ok ⟨false, none⟩, true)
  ∧ isProxyVersionStale (some ["duelsplus-1.8.0-beta-node18-win-x64.exe"])
      "win-x64" true .reject = (.error (), true) :=
  ⟨(isProxyVersionStale_spec _ "win-x64" true [⟨"1.8.0", true, []⟩]
      ⟨"duelsplus-1.8.0-beta-node18-win-x64.exe", "1.8.0", true⟩
      ⟨"1.8.0", true, []⟩ (by decide) rfl).1,
   (isProxyVersionStale_spec _ "win-x64" false [⟨"1.8.0", true, []⟩]
      ⟨"duelsplus-1.8.0-beta-node18-win-x64.exe", "1.8.0", true⟩
      ⟨"1.8.0", true, []⟩ (by decide) rfl).1,
   (isProxyVersionStale_spec _ "win-x64" false [⟨"1.8.0", true, []⟩]
      ⟨"duelsplus-1.8.0-beta-node18-win-x64.exe", "1.8.0", true⟩
      ⟨"1.8.0", true, []⟩ (by decide) rfl).2.1,
   (isProxyVersionStale_spec _ "win-x64" true [⟨"1.8.0", true, []⟩]
      ⟨"duelsplus-1.8.0-beta-node18-win-x64.exe", "1.8.0", true⟩
      ⟨"1.8.0", true, []⟩ (by decide) rfl).2.2.1⟩

/-- C6: whenever the probe's bind attempt fails — for any reason, not
only address-in-use — `isPortFree` reports the port as not free, and
`launchProxy` throws the port-in-use error, leaving the install
directory untouched, downloading nothing and spawning nothing. -/
theorem launchProxy_port_in_use (bind : BindOutcome) (env : ResolverEnv)
    (flags : RuntimeFlags) (files : List FileEntry)
    (h : bind ≠ .success) :
    isPortFree bind = false
  ∧ launchProxy bind env flags files
      = ⟨.error .portInUse, files, [], false⟩ := by
  cases bind with
  | success => exact absurd rfl h
  | addrInUse => exact ⟨rfl, rfl⟩
  | otherErr => exact ⟨rfl, rfl⟩

/-- Witness for C6: both an address-in-use probe failure and an
unrelated probe failure make `launchProxy` fail with the port-in-use
error and no download or spawn. -/
theorem launchProxy_port_in_use_witness :
    (isPortFree .addrInUse = false
      ∧ launchProxy .addrInUse ⟨"win-x64", .reject, 0, false⟩ ⟨none, false, false⟩ []
          = ⟨.error .portInUse, [], [], false⟩)
  ∧ (isPortFree .otherErr = false
      ∧ launchProxy .otherErr ⟨"win-x64", .reject, 0, false⟩ ⟨none, false, false⟩ []
          = ⟨.error .portInUse, [], [], false⟩) :=
  ⟨launchProxy_port_in_use .addrInUse ⟨"win-x64", .reject, 0, false⟩
      ⟨none, false, false⟩ [] (by decide),
   launchProxy_port_in_use .otherErr ⟨"win-x64", .reject, 0, false⟩
      ⟨none, false, false⟩ [] (by decide)⟩

/-- Branch analysis of the signal fallback: it keeps the
`isIntentionalShutdown` flag, appends only signal/delete events after
the prefix, and always completes. -/
theorem killFallback_props (s1 : SupervisorState) (pre : List KillEvent)
    (hflag : s1.isIntentionalShutdown = true) :
    (∃ tail, (killFallback s1 pre).trace = pre ++ tail
        ∧ KillEvent.setIntentionalShutdown ∉ tail)
  ∧ (killFallback s1 pre).state.isIntentionalShutdown = true
  ∧ (killFallback s1 pre).completed = true := by
  unfold killFallback
  rcases ha : s1.isAttachedToExisting with _ | _ <;>
    rcases hp : s1.attachedPid with _ | pid <;>
    rcases ho : s1.proxyProc with _ | opid <;>
    simp [hflag]

/-- C1: in every execution of `killProxy`, setting
`isIntentionalShutdown` is the very first observable action and is never
repeated, so every control-socket shutdown write and every termination
signal in the trace occurs strictly after it; the flag ends up `true`,
and consequently the exit waiter of `launchProxy`, observing the exit of
a kill-initiated shutdown, never emits a crash notification. -/
theorem kill_sets_flag_first (s : SupervisorState) (sock : SocketScenario) :
    (∃ rest, (killProxy s sock).trace
        = KillEvent.setIntentionalShutdown :: rest
      ∧ KillEvent.setIntentionalShutdown ∉ rest)
  ∧ (killProxy s sock).state.isIntentionalShutdown = true
  ∧ ∀ code : Int,
      (exitWaiterOnExit (killProxy s sock).state code).2 = false := by
  have hexit : ∀ t : SupervisorState, t.isIntentionalShutdown = true →
      ∀ code : Int, (exitWaiterOnExit t code).2 = false := by
    intro t ht code
    simp [exitWaiterOnExit, ht]
  rcases hcp : truthyControlPort s.proxyOwnLock with _ | cp
  · have heq : killProxy s sock
        = killFallback { s with isIntentionalShutdown := true }
            [KillEvent.setIntentionalShutdown] := by
      simp [killProxy, hcp]
    obtain ⟨⟨tail, htr, hnf⟩, hflag, -⟩ :=
      killFallback_props { s with isIntentionalShutdown := true }
        [KillEvent.setIntentionalShutdown] rfl
    rw [heq]
    exact ⟨⟨tail, by simpa using htr, hnf⟩, hflag, hexit _ hflag⟩
  · rcases hr : runSocket 5000 sock.events true with _ | res
    · have heq : killProxy s sock
          = ⟨{ s with isIntentionalShutdown := true },
              [KillEvent.setIntentionalShutdown]
                ++ (if sock.connects then [KillEvent.shutdownWrite cp] else []),
              false⟩ := by
        simp [killProxy, sendShutdownCommand, hcp, hr]
      rw [heq]
      refine ⟨⟨_, rfl, ?_⟩, rfl, hexit _ rfl⟩
      rcases sock.connects <;> simp
    · rcases res with _ | _
      · have heq : killProxy s sock
            = killFallback { s with isIntentionalShutdown := true }
                ([KillEvent.setIntentionalShutdown]
                  ++ (if sock.connects then [KillEvent.shutdownWrite cp] else [])) := by
          simp [killProxy, sendShutdownCommand, hcp, hr]
        obtain ⟨⟨tail, htr, hnf⟩, hflag, -⟩ :=
          killFallback_props { s with isIntentionalShutdown := true }
            ([KillEvent.setIntentionalShutdown]
              ++ (if sock.connects then [KillEvent.shutdownWrite cp] else [])) rfl
        rw [heq, htr]
        refine ⟨⟨(if sock.connects then [KillEvent.shutdownWrite cp] else []) ++ tail,
          by simp, ?_⟩, hflag, hexit _ hflag⟩
        rcases sock.connects <;> simp [hnf]
      · have heq : killProxy s sock
            = ⟨{ s with isIntentionalShutdown := true,
                        isAttachedToExisting := false, attachedPid := none,
                        attachedPort := none },
                [KillEvent.setIntentionalShutdown]
                  ++ (if sock.connects then [KillEvent.shutdownWrite cp] else []),
                true⟩ := by
          simp [killProxy, sendShutdownCommand, hcp, hr]
        rw [heq]
        refine ⟨⟨_, rfl, ?_⟩, rfl, hexit _ rfl⟩
        rcases sock.connects <;> simp

/-- C7: when the proxy's lock file exposes a reachable control port and
the handshake is acknowledged with `ok` within the timeout, `killProxy`
returns without issuing any OS-level termination signal — neither a PID
signal on the attached path nor a handle kill on the owned path. -/
theorem graceful_first (s : SupervisorState) (sock : SocketScenario) (cp : Nat)
    (hcp : truthyControlPort s.proxyOwnLock = some cp)
    (hack : runSocket 5000 sock.events true = some true) :
    (killProxy s sock).completed = true
  ∧ ∀ e ∈ (killProxy s sock).trace, ∀ pid : Nat,
      e ≠ KillEvent.signalPid pid ∧ e ≠ KillEvent.killHandle pid := by
  have heq : killProxy s sock
      = ⟨{ s with isIntentionalShutdown := true, isAttachedToExisting := false,
                  attachedPid := none, attachedPort := none },
          [KillEvent.setIntentionalShutdown]
            ++ (if sock.connects then [KillEvent.shutdownWrite cp] else []),
          true⟩ := by
    simp [killProxy, sendShutdownCommand, hcp, hack]
  rw [heq]
  refine ⟨rfl, ?_⟩
  intro e he pid
  rcases hc : sock.connects <;> rw [hc] at he <;> simp at he
  · subst he
    exact ⟨by simp, by simp⟩
  · rcases he with he | he <;> subst he <;> exact ⟨by simp, by simp⟩

/-- Witness for C7: an attached supervisor whose control socket
acknowledges; the kill completes and no PID signal for the attached
process appears in the trace. -/
theorem graceful_first_witness :
    (killProxy attachedKillScenario okAckScenario).completed = true
  ∧ KillEvent.signalPid 4321 ∉
      (killProxy attachedKillScenario okAckScenario).trace :=
  ⟨(graceful_first attachedKillScenario okAckScenario 9999 rfl rfl).1,
   fun hmem =>
     ((graceful_first attachedKillScenario okAckScenario 9999 rfl rfl).2
       _ hmem 4321).1 rfl⟩

/-- C2: the claim fails on the code.  `sendShutdownCommand`'s `data` and
`close` handlers clear the 5-second timer without settling the promise,
so when the peer sends a payload other than `ok`, or closes the
connection without data, before the deadline, the handshake never
terminates at all — it neither reports failure nor falls back.  (An `ok`
payload, trimmed, is still acknowledged, and a socket error still
reports failure.) -/
theorem handshake_hangs_without_ack :
    sendShutdownCommand ⟨true, [(100, .closeEv)]⟩ = (none, true)
  ∧ sendShutdownCommand ⟨true, [(100, .data "nope"), (200, .closeEv)]⟩
      = (none, true)
  ∧ sendShutdownCommand ⟨true, [(10, .data " ok "), (20, .errEv)]⟩
      = (some true, true)
  ∧ sendShutdownCommand ⟨true, [(100, .errEv)]⟩ = (some false, true)
  ∧ sendShutdownCommand ⟨true, []⟩ = (some false, true) :=
  ⟨rfl, rfl, rfl, rfl, rfl⟩

/-- C9: whenever the cached file at the expected asset path is smaller
than 50 MB, the resolver decides `needsDownload = true` and downloads
the artifact — the decision is forced by the size guard alone,
independently of the later filename-match check. -/
theorem corruption_guard (env : ResolverEnv) (flags : RuntimeFlags)
    (files : List FileEntry) (releases : List Release) (latest : Release)
    (asset : Asset) (s : Nat)
    (hov : flags.proxyPathOverride = none)
    (hnu : flags.noUpdate = false)
    (hf : env.fetch = .ok releases)
    (hlat : latestOf releases = some latest)
    (hasset : latest.assets.find? (fun a => strIncludes a.name env.platformTag)
      = some asset)
    (hsize : statSize files asset.name = some s)
    (hsmall : s < 50 * 1024 * 1024) :
    (checkForUpdates env flags files).needsDownload = some true
  ∧ (checkForUpdates env flags files).downloads = [asset.id] := by
  have hex : fileExists files asset.name = true := fileExists_of_statSize hsize
  have hnd : needsDownloadDecision files env.platformTag asset
      flags.forceUpdate = true := by
    simp [needsDownloadDecision, hex, hsize, hsmall]
  constructor <;> simp [checkForUpdates, hov, hf, hlat, hasset, hnu, hnd]

/-- Witness for C9: a 1000-byte cached binary whose filename matches the
expected asset exactly is still redownloaded. -/
theorem corruption_guard_witness :
    (checkForUpdates bigArtifactEnv defaultFlags
        [⟨"duelsplus-1.0.0-node18-win-x64.exe", 1000⟩]).needsDownload
      = some true
  ∧ (checkForUpdates bigArtifactEnv defaultFlags
        [⟨"duelsplus-1.0.0-node18-win-x64.exe", 1000⟩]).downloads = ["a1"] :=
  corruption_guard bigArtifactEnv defaultFlags
    [⟨"duelsplus-1.0.0-node18-win-x64.exe", 1000⟩] oneAssetReleases
    ⟨"1.0.0", true, [⟨"a1", "duelsplus-1.0.0-node18-win-x64.exe"⟩]⟩
    ⟨"a1", "duelsplus-1.0.0-node18-win-x64.exe"⟩ 1000
    rfl rfl rfl rfl rfl rfl (by decide)

/-- C3 counterexample: a launcher attached to pid 4321 (lock file on
disk) performs a graceful kill that the control socket acknowledges; the
kill completes, the process dies, the liveness poll stops without
emitting anything — and the launcher's lock file is still on disk. -/
theorem lockfile_survives_graceful_attached_kill :
    (killProxy attachedKillScenario okAckScenario).completed = true
  ∧ (killProxy attachedKillScenario okAckScenario).state.cliLock
      = .valid ⟨4321, 25565, none⟩
  ∧ (attachPollTick (fun _ => false)
        (killProxy attachedKillScenario okAckScenario).state).1.cliLock
      = .valid ⟨4321, 25565, none⟩
  ∧ (attachPollTick (fun _ => false)
        (killProxy attachedKillScenario okAckScenario).state).2 = false :=
  ⟨rfl, rfl, rfl, rfl⟩

/-- C3 amended: the lock-file record is written on detach and deleted on
confirmed death by the owned-path exit waiter, by the attach liveness
poll while the supervisor is still attached, and by the signal fallback
of `killProxy` (attached path); but after a graceful control-socket kill
of an attached proxy the file survives (see the counterexample) until a
later `checkForExistingProxy` probe deletes it. -/
theorem lockfile_lifecycle_amended :
    (∀ (s : SupervisorState) (code : Int),
        (exitWaiterOnExit s code).1.cliLock = .absent)
  ∧ (∀ (alive : Nat → Bool) (s : SupervisorState) (pid : Nat),
        s.isAttachedToExisting = true → s.attachedPid = some pid →
        alive pid = false →
        (attachPollTick alive s).1.cliLock = .absent)
  ∧ (∀ (s : SupervisorState) (sock : SocketScenario) (pid : Nat),
        s.isAttachedToExisting = true → s.attachedPid = some pid →
        (truthyControlPort s.proxyOwnLock = none
          ∨ runSocket 5000 sock.events true = some false) →
        (killProxy s sock).state.cliLock = .absent
          ∧ (killProxy s sock).completed = true)
  ∧ (∀ (s : SupervisorState) (sock : SocketScenario) (pid : Nat),
        s.isAttachedToExisting = false → s.proxyProc = some pid →
        (truthyControlPort s.proxyOwnLock = none
          ∨ runSocket 5000 sock.events true = some false) →
        (killProxy s sock).state.cliLock = .absent
          ∧ (killProxy s sock).completed = true)
  ∧ (∀ (s : SupervisorState) (pid port : Nat),
        s.isProxyRunning = true → s.isAttachedToExisting = true →
        s.attachedPid = some pid →
        detachProxy s port = .ok { s with
          cliLock := savePidFile pid port, isProxyRunning := false,
          isAttachedToExisting := false, attachedPid := none,
          attachedPort := none }) := by
  refine ⟨?_, ?_, ?_, ?_, ?_⟩
  · intro s code
    simp [exitWaiterOnExit, deletePidFile]
  · intro alive s pid h1 h2 h3
    simp [attachPollTick, h1, h2, h3, deletePidFile]
  · intro s sock pid h1 h2 hcase
    rcases hcp : truthyControlPort s.proxyOwnLock with _ | cp
    · constructor <;>
        simp [killProxy, hcp, killFallback, h1, h2, deletePidFile]
    · rcases hcase with hnone | hfail
      · rw [hcp] at hnone; cases hnone
      · constructor <;>
          simp [killProxy, sendShutdownCommand, hcp, hfail, killFallback,
            h1, h2, deletePidFile]
  · intro s sock pid h1 hproc hcase
    rcases hcp : truthyControlPort s.proxyOwnLock with _ | cp
    · constructor <;>
        simp [killProxy, hcp, killFallback, h1, hproc, deletePidFile]
    · rcases hcase with hnone | hfail
      · rw [hcp] at hnone; cases hnone
      · constructor <;>
          simp [killProxy, sendShutdownCommand, hcp, hfail, killFallback,
            h1, hproc, deletePidFile]
  · intro s pid port h1 h2 h3
    simp [detachProxy, h1, h2, h3]

/-- Witness for the amended C3 lifecycle: each deletion/write path at a
concrete state. -/
theorem lockfile_lifecycle_amended_witness :
    (exitWaiterOnExit attachedKillScenario 1).1.cliLock = .absent
  ∧ (attachPollTick (fun _ => false) attachedKillScenario).1.cliLock = .absent
  ∧ (killProxy { attachedKillScenario with proxyOwnLock := none }
        okAckScenario).state.cliLock = .absent
  ∧ (killProxy { attachedKillScenario with
                 isAttachedToExisting := false, attachedPid := none,
                 proxyProc := some 999, proxyOwnLock := none }
        okAckScenario).state.cliLock = .absent
  ∧ detachProxy attachedKillScenario 25565 = .ok { attachedKillScenario with
        cliLock := savePidFile 4321 25565, isProxyRunning := false,
        isAttachedToExisting := false, attachedPid := none,
        attachedPort := none } :=
  ⟨lockfile_lifecycle_amended.1 attachedKillScenario 1,
   lockfile_lifecycle_amended.2.1 (fun _ => false) attachedKillScenario 4321
     rfl rfl rfl,
   (lockfile_lifecycle_amended.2.2.1
     { attachedKillScenario with proxyOwnLock := none }
     okAckScenario 4321 rfl rfl (Or.inl rfl)).1,
   (lockfile_lifecycle_amended.2.2.2.1
     { attachedKillScenario with
       isAttachedToExisting := false, attachedPid := none,
       proxyProc := some 999, proxyOwnLock := none }
     okAckScenario 999 rfl rfl (Or.inl rfl)).1,
   lockfile_lifecycle_amended.2.2.2.2 attachedKillScenario 4321 25565
     rfl rfl rfl⟩

/-- C8 counterexample: with release metadata and runtime flags unchanged
between the calls, an artifact of 10 MB — below the 50 MB corruption
threshold — is downloaded by the first call and then again by the
second, whose `needsDownload` comes out `true`, not `false`. -/
theorem resolve_twice_small_redownloads :
    (checkForUpdates smallArtifactEnv defaultFlags []).downloads = ["a1"]
  ∧ (checkForUpdates smallArtifactEnv defaultFlags
        ((checkForUpdates smallArtifactEnv defaultFlags []).files)).downloads
      = ["a1"]
  ∧ (checkForUpdates smallArtifactEnv defaultFlags
        ((checkForUpdates smallArtifactEnv defaultFlags []).files)).needsDownload
      = some true :=
  ⟨rfl, rfl, rfl⟩

/-- With force-update off, a `needsDownload = false` decision implies the
expected asset file is cached with a size of at least 50 MB. -/
theorem needsDownload_false_elim {files : List FileEntry} {tag : String}
    {asset : Asset}
    (h : needsDownloadDecision files tag asset false = false) :
    ∃ s, statSize files asset.name = some s ∧ 50 * 1024 * 1024 ≤ s := by
  unfold needsDownloadDecision at h
  by_cases hex : fileExists files asset.name = true
  · rcases hstat : statSize files asset.name with _ | s
    · rw [hex, hstat] at h
      simp at h
    · rw [hex, hstat] at h
      by_cases hs : s < 50 * 1024 * 1024
      · simp [hs] at h
      · exact ⟨s, rfl, Nat.le_of_not_lt hs⟩
  · have hex' : fileExists files asset.name = false :=
      Bool.eq_false_iff.mpr hex
    rw [hex'] at h
    simp at h

/-- C8 amended: calling the resolver twice in succession with no state
change between the calls downloads at most once, provided force-update
mode is off and the delivered artifact is at least 50 MB (and the
platform tag is nonempty, as every supported platform's is): the second
call finds the correct cached file and computes `needsDownload = false`.
An artifact below 50 MB trips the corruption guard on every call and is
redownloaded each time (see the counterexample); force-update likewise
forces a download on both calls. -/
theorem resolve_idempotent (env : ResolverEnv) (flags : RuntimeFlags)
    (files : List FileEntry) (releases : List Release) (latest : Release)
    (asset : Asset)
    (hov : flags.proxyPathOverride = none)
    (hnu : flags.noUpdate = false)
    (hfu : flags.forceUpdate = false)
    (htag : env.platformTag ≠ "")
    (hf : env.fetch = .ok releases)
    (hlat : latestOf releases = some latest)
    (hasset : latest.assets.find? (fun a => strIncludes a.name env.platformTag)
      = some asset)
    (hsz : 50 * 1024 * 1024 ≤ env.artifactSize) :
    (checkForUpdates env flags
        ((checkForUpdates env flags files).files)).downloads = []
  ∧ (checkForUpdates env flags
        ((checkForUpdates env flags files).files)).needsDownload
      = some false := by
  have hAname : asset.name ≠ "" := by
    intro hempty
    apply htag
    apply strIncludes_empty_left
    have hpred := List.find?_some hasset
    rw [hempty] at hpred
    simpa using hpred
  have h1 : (checkForUpdates env flags files).files
      = cleanupProxyBinaries
          (if needsDownloadDecision files env.platformTag asset false then
            writeArtifact files asset.name env.artifactSize
          else files)
          env.platformTag (some asset.name) := by
    simp [checkForUpdates, hov, hf, hlat, hasset, hnu, hfu]
  obtain ⟨s2, hstatX, hs2⟩ :
      ∃ s2, statSize
          (if needsDownloadDecision files env.platformTag asset false then
            writeArtifact files asset.name env.artifactSize
          else files) asset.name = some s2
        ∧ 50 * 1024 * 1024 ≤ s2 := by
    by_cases hnd : needsDownloadDecision files env.platformTag asset false
      = true
    · rw [if_pos hnd]
      exact ⟨env.artifactSize, statSize_writeArtifact files asset.name
        env.artifactSize, hsz⟩
    · have hnd' : needsDownloadDecision files env.platformTag asset false
          = false := Bool.eq_false_iff.mpr hnd
      obtain ⟨s, hs, hls⟩ := needsDownload_false_elim hnd'
      rw [if_neg hnd]
      exact ⟨s, hs, hls⟩
  have hstat1 : statSize ((checkForUpdates env flags files).files) asset.name
      = some s2 := by
    rw [h1, statSize_cleanup _ _ _ hAname]
    exact hstatX
  have hex1 : fileExists ((checkForUpdates env flags files).files) asset.name
      = true := fileExists_of_statSize hstat1
  have hnotlt : ¬ (s2 < 50 * 1024 * 1024) := Nat.not_lt.mpr hs2
  have hinst1 : ∀ i, getInstalledProxy
      (some (((checkForUpdates env flags files).files).map (·.name)))
      env.platformTag = some i → i.fileName = asset.name := by
    intro i hi
    have hi' : findInstalled env.platformTag
        (((checkForUpdates env flags files).files).map (·.name)) = some i := hi
    refine findInstalled_fileName _ ?_ i hi'
    intro n hn htagn
    obtain ⟨f, hf', rfl⟩ := List.mem_map.mp hn
    rw [h1] at hf'
    exact name_eq_keep_of_mem_cleanup hf' htagn
  have hnd2 : needsDownloadDecision ((checkForUpdates env flags files).files)
      env.platformTag asset false = false := by
    rcases hgi : getInstalledProxy
        (some (((checkForUpdates env flags files).files).map (·.name)))
        env.platformTag with _ | installed
    · simp [needsDownloadDecision, hex1, hstat1, hnotlt, hgi]
    · have hname := hinst1 installed hgi
      simp [needsDownloadDecision, hex1, hstat1, hnotlt, hgi, hname]
  rw [h1] at hnd2
  constructor <;>
    simp [checkForUpdates, hov, hf, hlat, hasset, hnu, hfu, hnd2]

/-- Witness for the amended C8: with a 100 MB artifact and default
flags, the second resolver call downloads nothing and computes
`needsDownload = false`. -/
theorem resolve_idempotent_witness :
    (checkForUpdates bigArtifactEnv defaultFlags
        ((checkForUpdates bigArtifactEnv defaultFlags []).files)).downloads = []
  ∧ (checkForUpdates bigArtifactEnv defaultFlags
        ((checkForUpdates bigArtifactEnv defaultFlags []).files)).needsDownload
      = some false :=
  resolve_idempotent bigArtifactEnv defaultFlags [] oneAssetReleases
    ⟨"1.0.0", true, [⟨"a1", "duelsplus-1.0.0-node18-win-x64.exe"⟩]⟩
    ⟨"a1", "duelsplus-1.0.0-node18-win-x64.exe"⟩
    rfl rfl rfl (by decide) rfl rfl rfl (by decide)

end DuelsPlus
